import Mathlib

/-!
# Checkpoint configuration and execution core

A shallow embedding of the checkpoint subsystem: the `CheckpointConfig`
record, the `SimpleCheckpointConfigurator` that expands high-level options
into an action list, serialization of configs to a plain structured form,
and the checkpoint runner that resolves the effective validation list and
aggregates validation outcomes into a `CheckpointResult`.

The repository snapshot ships only the package declarations and the test
suite for this core; the executable definitions below are therefore
modelled from the specification (and cross-checked against the assertions
of `tests/checkpoint/test_simple_checkpoint.py`).
-/

/-- A batch request descriptor: identifies which data to validate
(datasource, data-connector, data-asset identifiers). -/
structure BatchRequest where
  datasource_name : String
  data_connector_name : String
  data_asset_name : String
deriving DecidableEq, Repr

/-- A validation entry of a checkpoint config: a batch request plus an
expectation-suite name, either of which may be omitted and backfilled from
top-level defaults at run time. -/
structure ValidationSpec where
  batch_request : Option BatchRequest
  expectation_suite_name : Option String
deriving DecidableEq, Repr

/-- Trigger condition of the slack notification action. -/
inductive NotifyOn where
  | all
  | success
  | failure
deriving DecidableEq, Repr

/-- Modelled from the spec: `ActionSpec` is a tagged variant over action
kinds, each carrying kind-specific fields. Only the four kinds emitted by
`SimpleCheckpointConfigurator` are needed here; the slack action carries
webhook URL, trigger condition and target-site list (its renderer reference
is a constant and is emitted by serialization). -/
inductive ActionSpec where
  | storeValidationResult
  | storeEvaluationParameters
  | updateDataDocs (site_names : Option (List String))
  | notifySlack (slack_webhook : String) (notify_on : NotifyOn)
      (notify_with : Option (List String))
deriving DecidableEq, Repr

/-- One element of an action list: an action name paired with its spec.
Order within the list is execution order. -/
structure ActionEntry where
  name : String
  action : ActionSpec
deriving DecidableEq, Repr

/-- Modelled from the spec: the persistable checkpoint configuration record
(§3), with the persisted field set of §6. `config_version` is the numeric
schema version (1 for this design); mapping-valued fields are association
lists. -/
structure CheckpointConfig where
  name : String
  config_version : Nat
  class_name : String
  module_name : String
  template_name : Option String
  run_name_template : Option String
  expectation_suite_name : Option String
  batch_request : Option BatchRequest
  action_list : List ActionEntry
  evaluation_parameters : List (String × String)
  runtime_configuration : List (String × String)
  validations : List ValidationSpec
  profilers : List String
deriving DecidableEq, Repr

/-- A dynamically-typed option value as a Python caller could pass it:
`None`, a string, an integer, or a list of such values. Used for the
loosely-validated high-level options of the configurator. -/
inductive PyValue where
  | pyNone
  | pyStr (s : String)
  | pyInt (n : Int)
  | pyList (xs : List PyValue)

/-- Errors raised at configuration-build time. `configError` covers the
spec's ConfigError/ValueError class (malformed or self-contradictory
configuration); `typeError` covers the TypeError class (wrong element
type in a site-name collection). -/
inductive BuildError where
  | configError
  | typeError
deriving DecidableEq, Repr

/-- Extract an all-string list from a list of dynamic values; fails when
any element is not a string. -/
def asStringList : List PyValue → Option (List String)
  | [] => some []
  | .pyStr s :: rest => (asStringList rest).map (fun t => s :: t)
  | _ => Option.none

/-- Modelled from the spec: a slack webhook must be a non-empty string
resembling a URL; a string lacking a scheme (such as "bad") is malformed.
The check is on the character list so that it evaluates structurally. -/
def isUrl (s : String) : Bool :=
  "http://".data.isPrefixOf s.data || "https://".data.isPrefixOf s.data

/-- The webhook option is valid when absent or a well-formed URL. -/
def validSlackWebhook : Option String → Bool
  | Option.none => true
  | some w => isUrl w

/-- `notify_on` must be one of the strings "all", "success", "failure";
every other value (non-string, `None`, empty list, wrong string) is
invalid. -/
def validNotifyOn : PyValue → Bool
  | .pyStr s => s = "all" || s = "success" || s = "failure"
  | _ => false

/-- `notify_with` must be the literal "all", `None`, or a homogeneous list
of strings. -/
def validNotifyWith : PyValue → Bool
  | .pyStr s => s = "all"
  | .pyNone => true
  | .pyList xs => (asStringList xs).isSome
  | _ => false

/-- Whether an option value is the literal string "all" (the default of
both `notify_on` and `notify_with`). -/
def isLiteralAll : PyValue → Bool
  | .pyStr s => s = "all"
  | _ => false

/-- Decode a validated `notify_on` option into the trigger condition. -/
def toNotifyOn : PyValue → NotifyOn
  | .pyStr "success" => NotifyOn.success
  | .pyStr "failure" => NotifyOn.failure
  | _ => NotifyOn.all

/-- Decode a validated `notify_with` option into the slack action's target
list; "all" and `None` are represented downstream as unset-meaning-all. -/
def toNotifyWith : PyValue → Option (List String)
  | .pyList xs => asStringList xs
  | _ => Option.none

/-- The context collaborator as the configurator sees it: the registry of
documentation-site names (`DocsSiteRegistry.site_names`). -/
structure DataContext where
  site_names : List String
deriving DecidableEq, Repr

/-- Modelled from the spec: resolve the `site_names` option into the
update-docs part of the action list. "all" keeps the action with an unset
site filter; `None` drops the action; an explicit collection must contain
only strings (else TypeError) each registered with the context (else
ConfigError/ValueError) and becomes the exact filter. Any other value is
rejected as a wrong type. The outer option is presence of the action, the
inner option the site filter. -/
def resolveSiteNames (context : DataContext) :
    PyValue → Except BuildError (Option (Option (List String)))
  | .pyStr "all" => Except.ok (some Option.none)
  | .pyNone => Except.ok Option.none
  | .pyList xs =>
      match asStringList xs with
      | Option.none => Except.error BuildError.typeError
      | some strs =>
          if strs.all (fun s => context.site_names.contains s) then
            Except.ok (some (some strs))
          else Except.error BuildError.configError
  | _ => Except.error BuildError.typeError

/-- The store-validation-result entry always emitted first. -/
def storeValidationResultEntry : ActionEntry :=
  { name := "store_validation_result", action := ActionSpec.storeValidationResult }

/-- The store-evaluation-parameters entry always emitted second. -/
def storeEvaluationParamsEntry : ActionEntry :=
  { name := "store_evaluation_params", action := ActionSpec.storeEvaluationParameters }

/-- The update-docs entry with a given site filter. -/
def updateDataDocsEntry (f : Option (List String)) : ActionEntry :=
  { name := "update_data_docs", action := ActionSpec.updateDataDocs f }

/-- The notify-slack entry. -/
def slackNotificationEntry (w : String) (no : NotifyOn)
    (nw : Option (List String)) : ActionEntry :=
  { name := "send_slack_notification", action := ActionSpec.notifySlack w no nw }

/-- The default value of the `notify_on` option when the caller omits it. -/
def defaultNotifyOn : PyValue := PyValue.pyStr "all"

/-- The default value of the `notify_with` option when the caller omits it. -/
def defaultNotifyWith : PyValue := PyValue.pyStr "all"

/-- The default value of the `site_names` option when the caller omits it. -/
def defaultSiteNames : PyValue := PyValue.pyStr "all"

namespace SimpleCheckpointConfigurator

/-- Modelled from the spec: `SimpleCheckpointConfigurator.build` (§4.2).
Validates the high-level options (failing with a build error before any
config is constructed), then emits the action list in fixed order:
store-validation-result, store-evaluation-parameters, the update-docs
action per the `site_names` rule, and the notify-slack action exactly when
a webhook was supplied. Omitted options are passed as their defaults
(`defaultNotifyOn`, `defaultNotifyWith`, `defaultSiteNames`). -/
def build (name : String) (context : DataContext)
    (slack_webhook : Option String) (notify_on : PyValue)
    (notify_with : PyValue) (site_names : PyValue) :
    Except BuildError CheckpointConfig :=
  if ¬ validSlackWebhook slack_webhook then Except.error BuildError.configError
  else if ¬ validNotifyOn notify_on then Except.error BuildError.configError
  else if ¬ validNotifyWith notify_with then Except.error BuildError.configError
  else if slack_webhook.isNone &&
      (!isLiteralAll notify_on || !isLiteralAll notify_with) then
    Except.error BuildError.configError
  else
    match resolveSiteNames context site_names with
    | Except.error e => Except.error e
    | Except.ok docsFilter =>
        let docsPart := match docsFilter with
          | some f => [updateDataDocsEntry f]
          | Option.none => []
        let slackPart := match slack_webhook with
          | some w =>
              [slackNotificationEntry w (toNotifyOn notify_on)
                (toNotifyWith notify_with)]
          | Option.none => []
        Except.ok
          { name := name
            config_version := 1
            class_name := "Checkpoint"
            module_name := "great_expectations.checkpoint"
            template_name := Option.none
            run_name_template := Option.none
            expectation_suite_name := Option.none
            batch_request := Option.none
            action_list :=
              [storeValidationResultEntry, storeEvaluationParamsEntry]
                ++ docsPart ++ slackPart
            evaluation_parameters := []
            runtime_configuration := []
            validations := []
            profilers := [] }

end SimpleCheckpointConfigurator

/-! ## Serialization to the plain structured form -/

/-- A plain structured value: mappings, sequences and scalars, the target
of config serialization. Omitted optional fields persist as explicit
null. -/
inductive PlainValue where
  | null
  | str (s : String)
  | num (n : Nat)
  | list (xs : List PlainValue)
  | map (kvs : List (String × PlainValue))

/-- Encode a string. -/
def encStr (s : String) : PlainValue := PlainValue.str s

/-- Decode a string. -/
def decStr : PlainValue → Option String
  | .str s => some s
  | _ => Option.none

/-- Encode an optional string; absence persists as explicit null. -/
def encOptStr : Option String → PlainValue
  | Option.none => PlainValue.null
  | some s => PlainValue.str s

/-- Decode an optional string. -/
def decOptStr : PlainValue → Option (Option String)
  | .null => some Option.none
  | .str s => some (some s)
  | _ => Option.none

/-- Decode every element of a list, failing when any element fails. -/
def decList {α : Type} (g : PlainValue → Option α) :
    List PlainValue → Option (List α)
  | [] => some []
  | v :: rest => (g v).bind (fun a => (decList g rest).map (fun t => a :: t))

/-- Encode an optional string list; absence persists as explicit null. -/
def encOptStrList : Option (List String) → PlainValue
  | Option.none => PlainValue.null
  | some xs => PlainValue.list (xs.map PlainValue.str)

/-- Decode an optional string list. -/
def decOptStrList : PlainValue → Option (Option (List String))
  | .null => some Option.none
  | .list xs => (decList decStr xs).map some
  | _ => Option.none

/-- Encode a batch request as a mapping of its three identifiers. -/
def encBatchRequest (b : BatchRequest) : PlainValue :=
  PlainValue.map
    [("datasource_name", PlainValue.str b.datasource_name),
     ("data_connector_name", PlainValue.str b.data_connector_name),
     ("data_asset_name", PlainValue.str b.data_asset_name)]

/-- Decode a batch request. -/
def decBatchRequest : PlainValue → Option BatchRequest
  | .map kvs => do
      let ds ← (kvs.lookup "datasource_name").bind decStr
      let dc ← (kvs.lookup "data_connector_name").bind decStr
      let da ← (kvs.lookup "data_asset_name").bind decStr
      pure { datasource_name := ds, data_connector_name := dc,
             data_asset_name := da }
  | _ => Option.none

/-- Encode an optional batch request; absence persists as explicit null. -/
def encOptBatchRequest : Option BatchRequest → PlainValue
  | Option.none => PlainValue.null
  | some b => encBatchRequest b

/-- Decode an optional batch request. -/
def decOptBatchRequest : PlainValue → Option (Option BatchRequest)
  | .null => some Option.none
  | v => (decBatchRequest v).map some

/-- The persisted name of a trigger condition. -/
def notifyOnStr : NotifyOn → String
  | NotifyOn.all => "all"
  | NotifyOn.success => "success"
  | NotifyOn.failure => "failure"

/-- Parse a persisted trigger condition. -/
def strToNotifyOn : String → Option NotifyOn
  | "all" => some NotifyOn.all
  | "success" => some NotifyOn.success
  | "failure" => some NotifyOn.failure
  | _ => Option.none

/-- Encode an action spec as its class-name-tagged mapping, mirroring the
persisted shape asserted by the test suite (the slack action carries its
constant renderer reference). -/
def encAction : ActionSpec → PlainValue
  | ActionSpec.storeValidationResult =>
      PlainValue.map [("class_name", PlainValue.str "StoreValidationResultAction")]
  | ActionSpec.storeEvaluationParameters =>
      PlainValue.map [("class_name", PlainValue.str "StoreEvaluationParametersAction")]
  | ActionSpec.updateDataDocs f =>
      PlainValue.map
        [("class_name", PlainValue.str "UpdateDataDocsAction"),
         ("site_names", encOptStrList f)]
  | ActionSpec.notifySlack w no nw =>
      PlainValue.map
        [("class_name", PlainValue.str "SlackNotificationAction"),
         ("slack_webhook", PlainValue.str w),
         ("notify_on", PlainValue.str (notifyOnStr no)),
         ("notify_with", encOptStrList nw),
         ("renderer", PlainValue.map
            [("module_name",
              PlainValue.str "great_expectations.render.renderer.slack_renderer"),
             ("class_name", PlainValue.str "SlackRenderer")])]

/-- Decode an action spec by its class-name tag. -/
def decAction : PlainValue → Option ActionSpec
  | .map kvs =>
      match kvs.lookup "class_name" with
      | some (.str "StoreValidationResultAction") =>
          some ActionSpec.storeValidationResult
      | some (.str "StoreEvaluationParametersAction") =>
          some ActionSpec.storeEvaluationParameters
      | some (.str "UpdateDataDocsAction") => do
          let fv ← kvs.lookup "site_names"
          let f ← decOptStrList fv
          pure (ActionSpec.updateDataDocs f)
      | some (.str "SlackNotificationAction") => do
          let wv ← kvs.lookup "slack_webhook"
          let w ← decStr wv
          let nov ← kvs.lookup "notify_on"
          let nos ← decStr nov
          let no ← strToNotifyOn nos
          let nwv ← kvs.lookup "notify_with"
          let nw ← decOptStrList nwv
          pure (ActionSpec.notifySlack w no nw)
      | _ => Option.none
  | _ => Option.none

/-- Encode an action-list entry as its name/action mapping. -/
def encActionEntry (e : ActionEntry) : PlainValue :=
  PlainValue.map [("name", PlainValue.str e.name), ("action", encAction e.action)]

/-- Decode an action-list entry. -/
def decActionEntry : PlainValue → Option ActionEntry
  | .map kvs => do
      let nv ← kvs.lookup "name"
      let n ← decStr nv
      let av ← kvs.lookup "action"
      let a ← decAction av
      pure { name := n, action := a }
  | _ => Option.none

/-- Encode a validation entry. -/
def encValidation (v : ValidationSpec) : PlainValue :=
  PlainValue.map
    [("batch_request", encOptBatchRequest v.batch_request),
     ("expectation_suite_name", encOptStr v.expectation_suite_name)]

/-- Decode a validation entry. -/
def decValidation : PlainValue → Option ValidationSpec
  | .map kvs => do
      let bv ← kvs.lookup "batch_request"
      let b ← decOptBatchRequest bv
      let sv ← kvs.lookup "expectation_suite_name"
      let s ← decOptStr sv
      pure { batch_request := b, expectation_suite_name := s }
  | _ => Option.none

/-- Encode a string-to-string association list as a mapping. -/
def encStrMap (kvs : List (String × String)) : PlainValue :=
  PlainValue.map (kvs.map (fun p => (p.1, PlainValue.str p.2)))

/-- Decode the key-value pairs of a string-to-string mapping. -/
def decStrPairs : List (String × PlainValue) → Option (List (String × String))
  | [] => some []
  | (k, v) :: rest =>
      (decStr v).bind (fun s => (decStrPairs rest).map (fun t => (k, s) :: t))

/-- Decode a string-to-string association list. -/
def decStrMap : PlainValue → Option (List (String × String))
  | .map kvs => decStrPairs kvs
  | _ => Option.none

/-- Modelled from the spec: serialize a checkpoint config to its plain
structured form, with the persisted field set of §6 in its documented
order; omitted optional fields persist as explicit null. -/
def serialize (c : CheckpointConfig) : PlainValue :=
  PlainValue.map
    [("name", PlainValue.str c.name),
     ("config_version", PlainValue.num c.config_version),
     ("class_name", PlainValue.str c.class_name),
     ("module_name", PlainValue.str c.module_name),
     ("template_name", encOptStr c.template_name),
     ("run_name_template", encOptStr c.run_name_template),
     ("expectation_suite_name", encOptStr c.expectation_suite_name),
     ("batch_request", encOptBatchRequest c.batch_request),
     ("action_list", PlainValue.list (c.action_list.map encActionEntry)),
     ("evaluation_parameters", encStrMap c.evaluation_parameters),
     ("runtime_configuration", encStrMap c.runtime_configuration),
     ("validations", PlainValue.list (c.validations.map encValidation)),
     ("profilers", PlainValue.list (c.profilers.map PlainValue.str))]

/-- Modelled from the spec: reconstruct a checkpoint config from its plain
structured form. -/
def deserialize : PlainValue → Option CheckpointConfig
  | .map kvs => do
      let n ← (kvs.lookup "name").bind decStr
      let cv ← kvs.lookup "config_version"
      let cvn ← match cv with
        | .num k => some k
        | _ => Option.none
      let cn ← (kvs.lookup "class_name").bind decStr
      let mn ← (kvs.lookup "module_name").bind decStr
      let tn ← (kvs.lookup "template_name").bind decOptStr
      let rnt ← (kvs.lookup "run_name_template").bind decOptStr
      let esn ← (kvs.lookup "expectation_suite_name").bind decOptStr
      let br ← (kvs.lookup "batch_request").bind decOptBatchRequest
      let al ← match kvs.lookup "action_list" with
        | some (.list xs) => decList decActionEntry xs
        | _ => Option.none
      let ep ← (kvs.lookup "evaluation_parameters").bind decStrMap
      let rc ← (kvs.lookup "runtime_configuration").bind decStrMap
      let vs ← match kvs.lookup "validations" with
        | some (.list xs) => decList decValidation xs
        | _ => Option.none
      let pf ← match kvs.lookup "profilers" with
        | some (.list xs) => decList decStr xs
        | _ => Option.none
      pure { name := n, config_version := cvn, class_name := cn,
             module_name := mn, template_name := tn,
             run_name_template := rnt, expectation_suite_name := esn,
             batch_request := br, action_list := al,
             evaluation_parameters := ep, runtime_configuration := rc,
             validations := vs, profilers := pf }
  | _ => Option.none

/-! ## Checkpoint runner -/

/-- The outcome of one validation run: the pass/fail flag delivered by the
validation engine collaborator. -/
structure ValidationOutcome where
  success : Bool
deriving DecidableEq, Repr

/-- Identifies one execution of a checkpoint. The run time of the source is
not modelled; the run name defaults to a fixed placeholder standing for the
timestamp-derived default. -/
structure RunIdentifier where
  run_name : String
deriving DecidableEq, Repr

/-- The key of one validation's entry in the result aggregation: suite name
plus run identifier plus batch identifier. -/
structure ValidationResultIdentifier where
  expectation_suite_name : String
  run_id : RunIdentifier
  batch_request : Option BatchRequest
deriving DecidableEq, Repr

/-- Modelled from the spec: the aggregated result of one checkpoint run,
keyed by per-validation identifiers. -/
structure CheckpointResult where
  run_id : RunIdentifier
  run_results : List (ValidationResultIdentifier × ValidationOutcome)
  name : String
deriving DecidableEq, Repr

/-- Overall success: the logical AND over all validation outcomes,
vacuously true when no validation ran. -/
def CheckpointResult.success (r : CheckpointResult) : Bool :=
  r.run_results.all (fun p => p.2.success)

/-- The ordered list of individual validation outcomes. -/
def CheckpointResult.list_validation_results (r : CheckpointResult) :
    List ValidationOutcome :=
  r.run_results.map (fun p => p.2)

/-- The expectation-suite names involved in the run, without duplicates. -/
def CheckpointResult.list_expectation_suite_names (r : CheckpointResult) :
    List String :=
  (r.run_results.map (fun p => p.1.expectation_suite_name)).eraseDups

/-- The placeholder for the timestamp-derived default run name. -/
def defaultRunName : String := "default-run-name"

/-- Backfill a validation entry from the effective top-level defaults:
each missing field (batch request, expectation-suite name) is taken from
the merged top-level value. -/
def backfillValidation (eff_br : Option BatchRequest)
    (eff_suite : Option String) (v : ValidationSpec) : ValidationSpec :=
  { batch_request := v.batch_request.orElse (fun _ => eff_br),
    expectation_suite_name :=
      v.expectation_suite_name.orElse (fun _ => eff_suite) }

/-- Modelled from the spec: resolve the effective validation list (§4.1).
An explicit run-time `validations` list is used verbatim; otherwise the
stored list is used; if that list is empty and a top-level batch request
and suite name are both present, a single-element list is synthesized from
them; if neither is available the effective list is empty. Every entry is
then backfilled from the effective top-level defaults. -/
def resolveValidations (config : CheckpointConfig)
    (batch_request : Option BatchRequest)
    (expectation_suite_name : Option String)
    (validations : Option (List ValidationSpec)) : List ValidationSpec :=
  let eff_br := batch_request.orElse (fun _ => config.batch_request)
  let eff_suite :=
    expectation_suite_name.orElse (fun _ => config.expectation_suite_name)
  let base := match validations with
    | some vs => vs
    | Option.none => config.validations
  let vlist := if base.isEmpty then
      match eff_br, eff_suite with
      | some br, some s =>
          [{ batch_request := some br, expectation_suite_name := some s }]
      | _, _ => []
    else base
  vlist.map (backfillValidation eff_br eff_suite)

/-- Modelled from the spec: `CheckpointRunner.run` (§4.3). The validation
engine collaborator is passed as a function from batch request and suite
name to an outcome. The effective validation list is resolved, a shared
run identifier generated (run-time override or the default name), each
validation executed sequentially in list order, and the outcomes
aggregated; overall success is the AND over the outcomes. A ConfigError is
raised when an entry ends up missing both a batch request and a suite name
after backfill; an entry whose batch request is missing is recorded as a
failed outcome (engine failure isolation). -/
def Checkpoint.run (engine : BatchRequest → String → ValidationOutcome)
    (config : CheckpointConfig) (run_name : Option String)
    (batch_request : Option BatchRequest)
    (expectation_suite_name : Option String)
    (validations : Option (List ValidationSpec)) :
    Except BuildError CheckpointResult :=
  let backfilled :=
    resolveValidations config batch_request expectation_suite_name validations
  if backfilled.any (fun v =>
      v.batch_request.isNone && v.expectation_suite_name.isNone) then
    Except.error BuildError.configError
  else
    let rid : RunIdentifier := { run_name := run_name.getD defaultRunName }
    let results := backfilled.map (fun v =>
      let s := v.expectation_suite_name.getD ""
      let outcome := match v.batch_request with
        | some br => engine br s
        | Option.none => { success := false }
      ({ expectation_suite_name := s, run_id := rid,
         batch_request := v.batch_request }, outcome))
    Except.ok { run_id := rid, run_results := results, name := config.name }

/-! ## Sample values used to instantiate the theorems -/

/-- A validation engine stub whose outcomes always succeed. -/
def constEngine : BatchRequest → String → ValidationOutcome :=
  fun _ _ => { success := true }

/-- A context with one registered documentation site, as in the test
fixtures. -/
def sampleContext : DataContext := { site_names := ["local_site"] }

/-- The batch request of the test fixtures. -/
def sampleBatchRequest : BatchRequest :=
  { datasource_name := "my_datasource",
    data_connector_name := "my_special_data_connector",
    data_asset_name := "users" }

/-- The config produced by the configurator with no optional arguments:
empty validations, no top-level defaults, default action list. -/
def emptyConfig : CheckpointConfig :=
  { name := "foo", config_version := 1, class_name := "Checkpoint",
    module_name := "great_expectations.checkpoint",
    template_name := Option.none, run_name_template := Option.none,
    expectation_suite_name := Option.none, batch_request := Option.none,
    action_list := [storeValidationResultEntry, storeEvaluationParamsEntry,
      updateDataDocsEntry Option.none],
    evaluation_parameters := [], runtime_configuration := [],
    validations := [], profilers := [] }

/-- A config exercising every serialized field with non-default values. -/
def sampleConfig : CheckpointConfig :=
  { name := "foo", config_version := 1, class_name := "Checkpoint",
    module_name := "great_expectations.checkpoint",
    template_name := Option.none, run_name_template := some "%Y-run",
    expectation_suite_name := some "one",
    batch_request := some sampleBatchRequest,
    action_list :=
      [storeValidationResultEntry, storeEvaluationParamsEntry,
       updateDataDocsEntry Option.none,
       slackNotificationEntry "https://hooks.slack.com/foo/bar" NotifyOn.all
         (some ["local_site"])],
    evaluation_parameters := [("p", "1")],
    runtime_configuration := [("result_format", "SUMMARY")],
    validations := [{ batch_request := some sampleBatchRequest,
                      expectation_suite_name := some "one" }],
    profilers := [] }

/-- The config built when a slack webhook is supplied and everything else
is left at its default. -/
def builtWithSlackConfig : CheckpointConfig :=
  { name := "foo", config_version := 1, class_name := "Checkpoint",
    module_name := "great_expectations.checkpoint",
    template_name := Option.none, run_name_template := Option.none,
    expectation_suite_name := Option.none, batch_request := Option.none,
    action_list := [storeValidationResultEntry, storeEvaluationParamsEntry,
      updateDataDocsEntry Option.none,
      slackNotificationEntry "https://hooks.slack.com/foo/bar" NotifyOn.all
        Option.none],
    evaluation_parameters := [], runtime_configuration := [],
    validations := [], profilers := [] }

/-- The config built when site selection is explicitly disabled. -/
def builtNoDocsConfig : CheckpointConfig :=
  { name := "foo", config_version := 1, class_name := "Checkpoint",
    module_name := "great_expectations.checkpoint",
    template_name := Option.none, run_name_template := Option.none,
    expectation_suite_name := Option.none, batch_request := Option.none,
    action_list := [storeValidationResultEntry, storeEvaluationParamsEntry],
    evaluation_parameters := [], runtime_configuration := [],
    validations := [], profilers := [] }

/-- The config built for an explicit one-element site selection. -/
def builtSelectedDocsConfig : CheckpointConfig :=
  { name := "foo", config_version := 1, class_name := "Checkpoint",
    module_name := "great_expectations.checkpoint",
    template_name := Option.none, run_name_template := Option.none,
    expectation_suite_name := Option.none, batch_request := Option.none,
    action_list := [storeValidationResultEntry, storeEvaluationParamsEntry,
      updateDataDocsEntry (some ["local_site"])],
    evaluation_parameters := [], runtime_configuration := [],
    validations := [], profilers := [] }

/-- The result of running `emptyConfig` with one explicit validation under
the always-succeeding engine. -/
def oneRunResult : CheckpointResult :=
  { run_id := { run_name := defaultRunName },
    run_results :=
      [({ expectation_suite_name := "one",
          run_id := { run_name := defaultRunName },
          batch_request := some sampleBatchRequest },
        { success := true })],
    name := "foo" }

/-! ## Round-trip lemmas for serialization -/

/-- Strings decode back to themselves. -/
theorem decStr_enc (s : String) : decStr (PlainValue.str s) = some s := rfl

/-- Optional strings round-trip. -/
theorem decOptStr_enc (o : Option String) : decOptStr (encOptStr o) = some o := by
  cases o <;> rfl

/-- Element-wise decoding inverts element-wise encoding. -/
theorem decList_enc {α : Type} (f : α → PlainValue) (g : PlainValue → Option α)
    (h : ∀ a, g (f a) = some a) (xs : List α) :
    decList g (xs.map f) = some xs := by
  induction xs with
  | nil => rfl
  | cons a t ih => simp [decList, h, ih]

/-- Optional string lists round-trip. -/
theorem decOptStrList_enc (o : Option (List String)) :
    decOptStrList (encOptStrList o) = some o := by
  cases o with
  | none => rfl
  | some xs =>
      simp [encOptStrList, decOptStrList,
        decList_enc PlainValue.str decStr decStr_enc]

/-- Batch requests round-trip. -/
theorem decBatchRequest_enc (b : BatchRequest) :
    decBatchRequest (encBatchRequest b) = some b := rfl

/-- Optional batch requests round-trip. -/
theorem decOptBatchRequest_enc (o : Option BatchRequest) :
    decOptBatchRequest (encOptBatchRequest o) = some o := by
  cases o <;> rfl

/-- Trigger-condition names parse back to the condition. -/
theorem strToNotifyOn_enc (no : NotifyOn) :
    strToNotifyOn (notifyOnStr no) = some no := by
  cases no <;> rfl

/-- Action specs round-trip. -/
theorem decAction_enc (a : ActionSpec) : decAction (encAction a) = some a := by
  cases a with
  | storeValidationResult => rfl
  | storeEvaluationParameters => rfl
  | updateDataDocs f =>
      simp [encAction, decAction, List.lookup, decOptStrList_enc]
  | notifySlack w no nw =>
      simp [encAction, decAction, List.lookup, decStr, decOptStrList_enc,
        strToNotifyOn_enc]

/-- Action-list entries round-trip. -/
theorem decActionEntry_enc (e : ActionEntry) :
    decActionEntry (encActionEntry e) = some e := by
  simp [encActionEntry, decActionEntry, List.lookup, decStr, decAction_enc]

/-- Validation entries round-trip. -/
theorem decValidation_enc (v : ValidationSpec) :
    decValidation (encValidation v) = some v := by
  simp [encValidation, decValidation, List.lookup, decOptBatchRequest_enc,
    decOptStr_enc]

/-- String-to-string mappings round-trip. -/
theorem decStrMap_enc (kvs : List (String × String)) :
    decStrMap (encStrMap kvs) = some kvs := by
  induction kvs with
  | nil => rfl
  | cons p t ih => simp_all [encStrMap, decStrMap, decStrPairs, decStr]

/-- Round-trip stability of config serialization: deserializing the
serialized plain form reproduces the config. -/
theorem deserialize_serialize (c : CheckpointConfig) :
    deserialize (serialize c) = some c := by
  simp [serialize, deserialize, List.lookup, decStr, decOptStr_enc,
    decOptBatchRequest_enc, decStrMap_enc,
    decList_enc encActionEntry decActionEntry decActionEntry_enc,
    decList_enc encValidation decValidation decValidation_enc,
    decList_enc PlainValue.str decStr decStr_enc]

/-! ## Claims -/

/-- Claim C1: the CheckpointResult's overall success equals the logical AND
of all individual validation outcomes, and `run()` with zero resolvable
validations (empty stored list, no top-level batch request or suite, no
run-time overrides) returns success, an empty run-results mapping and an
empty list of expectation-suite names. -/
theorem claim_C1 :
    (∀ (engine : BatchRequest → String → ValidationOutcome)
      (config : CheckpointConfig) (rn : Option String)
      (br : Option BatchRequest) (es : Option String)
      (vs : Option (List ValidationSpec)) (r : CheckpointResult),
      Checkpoint.run engine config rn br es vs = Except.ok r →
      (r.success = true ↔
        ∀ o ∈ r.list_validation_results, o.success = true)) ∧
    (∀ (engine : BatchRequest → String → ValidationOutcome)
      (config : CheckpointConfig),
      config.validations = [] → config.batch_request = Option.none →
      config.expectation_suite_name = Option.none →
      ∃ r, Checkpoint.run engine config Option.none Option.none Option.none
          Option.none = Except.ok r ∧
        r.success = true ∧ r.run_results = [] ∧
        r.list_expectation_suite_names = []) := by
  constructor
  · intro engine config rn br es vs r _
    simp only [CheckpointResult.success, CheckpointResult.list_validation_results,
      List.all_eq_true, List.mem_map]
    constructor
    · intro h o ⟨p, hp, hpo⟩
      exact hpo ▸ h p hp
    · intro h p hp
      exact h p.2 ⟨p, hp, rfl⟩
  · intro engine config h1 h2 h3
    refine ⟨CheckpointResult.mk (RunIdentifier.mk defaultRunName) [] config.name,
      ?_, rfl, rfl, rfl⟩
    simp [Checkpoint.run, resolveValidations, h1, h2, h3]

/-- Witness for C1 at the defaults-built config and the always-succeeding
engine: the empty run succeeds with empty results. -/
theorem claim_C1_witness :
    emptyConfig.validations = [] ∧
    (∃ r, Checkpoint.run constEngine emptyConfig Option.none Option.none
        Option.none Option.none = Except.ok r ∧
      r.success = true ∧ r.run_results = [] ∧
      r.list_expectation_suite_names = []) :=
  ⟨rfl, claim_C1.2 constEngine emptyConfig rfl rfl rfl⟩

/-- Claim C2: serializing a config to its plain structured form and
deserializing it back yields an equal config, and the reloaded config has
the same action list and runs identically to the pre-persistence
instance. -/
theorem claim_C2 :
    (∀ c : CheckpointConfig, deserialize (serialize c) = some c) ∧
    (∀ c c2 : CheckpointConfig, deserialize (serialize c) = some c2 →
      c2.action_list = c.action_list ∧
      ∀ (engine : BatchRequest → String → ValidationOutcome)
        (rn : Option String) (br : Option BatchRequest) (es : Option String)
        (vs : Option (List ValidationSpec)),
        Checkpoint.run engine c2 rn br es vs =
          Checkpoint.run engine c rn br es vs) := by
  constructor
  · exact deserialize_serialize
  · intro c c2 h
    rw [deserialize_serialize, Option.some.injEq] at h
    subst h
    exact ⟨rfl, fun _ _ _ _ _ => rfl⟩

/-- Witness for C2 at a concrete config exercising every persisted
field. -/
theorem claim_C2_witness :
    deserialize (serialize sampleConfig) = some sampleConfig ∧
    sampleConfig.action_list = sampleConfig.action_list ∧
    Checkpoint.run constEngine sampleConfig Option.none Option.none Option.none
        Option.none =
      Checkpoint.run constEngine sampleConfig Option.none Option.none Option.none
        Option.none :=
  ⟨claim_C2.1 sampleConfig,
   (claim_C2.2 sampleConfig sampleConfig (deserialize_serialize sampleConfig)).1,
   (claim_C2.2 sampleConfig sampleConfig (deserialize_serialize sampleConfig)).2
     constEngine Option.none Option.none Option.none Option.none⟩

/-- Claim C3: whenever the configurator builds successfully, the action
list is exactly, in order, the store-validation-result entry, the
store-evaluation-parameters entry, then at most one update-docs entry,
then the notify-slack entry exactly when a webhook was supplied — and
nothing else. -/
theorem claim_C3 (n : String) (ctx : DataContext) (wh : Option String)
    (no nw sn : PyValue) (cfg : CheckpointConfig)
    (h : SimpleCheckpointConfigurator.build n ctx wh no nw sn = Except.ok cfg) :
    ∃ docsPart slackPart,
      cfg.action_list =
        [storeValidationResultEntry, storeEvaluationParamsEntry]
          ++ docsPart ++ slackPart ∧
      (docsPart = [] ∨ ∃ f, docsPart = [updateDataDocsEntry f]) ∧
      ((wh = Option.none ∧ slackPart = []) ∨
        (∃ w, wh = some w ∧
          slackPart = [slackNotificationEntry w (toNotifyOn no) (toNotifyWith nw)])) := by
  unfold SimpleCheckpointConfigurator.build at h
  split at h
  · exact absurd h (by simp)
  split at h
  · exact absurd h (by simp)
  split at h
  · exact absurd h (by simp)
  split at h
  · exact absurd h (by simp)
  split at h
  · exact absurd h (by simp)
  rename_i docsFilter hdf
  rw [Except.ok.injEq] at h
  subst h
  cases docsFilter with
  | none =>
      cases wh with
      | none => exact ⟨[], [], by simp, Or.inl rfl, Or.inl ⟨rfl, rfl⟩⟩
      | some w => exact ⟨[], _, by simp, Or.inl rfl, Or.inr ⟨w, rfl, rfl⟩⟩
  | some f =>
      cases wh with
      | none => exact ⟨[updateDataDocsEntry f], [], by simp, Or.inr ⟨f, rfl⟩,
          Or.inl ⟨rfl, rfl⟩⟩
      | some w => exact ⟨[updateDataDocsEntry f], _, by simp, Or.inr ⟨f, rfl⟩,
          Or.inr ⟨w, rfl, rfl⟩⟩

/-- Witness for C3 at the test-fixture webhook: the built action list is
the four entries in their fixed order. -/
theorem claim_C3_witness :
    SimpleCheckpointConfigurator.build "foo" sampleContext
        (some "https://hooks.slack.com/foo/bar") defaultNotifyOn
        defaultNotifyWith defaultSiteNames = Except.ok builtWithSlackConfig ∧
    (∃ docsPart slackPart,
      builtWithSlackConfig.action_list =
        [storeValidationResultEntry, storeEvaluationParamsEntry]
          ++ docsPart ++ slackPart ∧
      (docsPart = [] ∨ ∃ f, docsPart = [updateDataDocsEntry f]) ∧
      ((some "https://hooks.slack.com/foo/bar" = Option.none ∧ slackPart = []) ∨
        (∃ w, some "https://hooks.slack.com/foo/bar" = some w ∧
          slackPart = [slackNotificationEntry w (toNotifyOn defaultNotifyOn)
            (toNotifyWith defaultNotifyWith)]))) :=
  ⟨rfl,
   claim_C3 "foo" sampleContext (some "https://hooks.slack.com/foo/bar")
     defaultNotifyOn defaultNotifyWith defaultSiteNames builtWithSlackConfig
     rfl⟩

/-- Claim C4: `site_names = None` yields no update-docs action;
`site_names = "all"` yields an update-docs action with an unset site
filter; an explicit list such as `["local_site"]` yields an update-docs
action whose filter is exactly that list. -/
theorem claim_C4 :
    (∀ (n : String) (ctx : DataContext) (wh : Option String) (no nw : PyValue)
      (cfg : CheckpointConfig),
      SimpleCheckpointConfigurator.build n ctx wh no nw PyValue.pyNone
        = Except.ok cfg →
      ∀ f, updateDataDocsEntry f ∉ cfg.action_list) ∧
    (∀ (n : String) (ctx : DataContext) (wh : Option String) (no nw : PyValue)
      (cfg : CheckpointConfig),
      SimpleCheckpointConfigurator.build n ctx wh no nw (PyValue.pyStr "all")
        = Except.ok cfg →
      updateDataDocsEntry Option.none ∈ cfg.action_list) ∧
    (∀ (n : String) (ctx : DataContext) (wh : Option String) (no nw : PyValue)
      (cfg : CheckpointConfig),
      SimpleCheckpointConfigurator.build n ctx wh no nw
          (PyValue.pyList [PyValue.pyStr "local_site"]) = Except.ok cfg →
      updateDataDocsEntry (some ["local_site"]) ∈ cfg.action_list) := by
  refine ⟨?_, ?_, ?_⟩
  · intro n ctx wh no nw cfg h f
    unfold SimpleCheckpointConfigurator.build at h
    split at h
    · exact absurd h (by simp)
    split at h
    · exact absurd h (by simp)
    split at h
    · exact absurd h (by simp)
    split at h
    · exact absurd h (by simp)
    split at h
    · exact absurd h (by simp)
    rename_i docsFilter hdf
    simp [resolveSiteNames] at hdf
    rw [Except.ok.injEq] at h
    subst h
    subst hdf
    cases wh <;>
      simp [storeValidationResultEntry, storeEvaluationParamsEntry,
        updateDataDocsEntry, slackNotificationEntry]
  · intro n ctx wh no nw cfg h
    unfold SimpleCheckpointConfigurator.build at h
    split at h
    · exact absurd h (by simp)
    split at h
    · exact absurd h (by simp)
    split at h
    · exact absurd h (by simp)
    split at h
    · exact absurd h (by simp)
    split at h
    · exact absurd h (by simp)
    rename_i docsFilter hdf
    simp [resolveSiteNames] at hdf
    rw [Except.ok.injEq] at h
    subst h
    subst hdf
    cases wh <;> simp
  · intro n ctx wh no nw cfg h
    unfold SimpleCheckpointConfigurator.build at h
    split at h
    · exact absurd h (by simp)
    split at h
    · exact absurd h (by simp)
    split at h
    · exact absurd h (by simp)
    split at h
    · exact absurd h (by simp)
    split at h
    · exact absurd h (by simp)
    rename_i docsFilter hdf
    by_cases hmem : "local_site" ∈ ctx.site_names
    · simp [resolveSiteNames, asStringList, hmem] at hdf
      rw [Except.ok.injEq] at h
      subst h
      subst hdf
      cases wh <;> simp
    · simp [resolveSiteNames, asStringList, hmem] at hdf

/-- Witness for C4: the three site-name modes at the test-fixture
context. -/
theorem claim_C4_witness :
    SimpleCheckpointConfigurator.build "foo" sampleContext Option.none
        defaultNotifyOn defaultNotifyWith PyValue.pyNone
        = Except.ok builtNoDocsConfig ∧
    updateDataDocsEntry Option.none ∉ builtNoDocsConfig.action_list ∧
    SimpleCheckpointConfigurator.build "foo" sampleContext Option.none
        defaultNotifyOn defaultNotifyWith (PyValue.pyStr "all")
        = Except.ok emptyConfig ∧
    updateDataDocsEntry Option.none ∈ emptyConfig.action_list ∧
    SimpleCheckpointConfigurator.build "foo" sampleContext Option.none
        defaultNotifyOn defaultNotifyWith
        (PyValue.pyList [PyValue.pyStr "local_site"])
        = Except.ok builtSelectedDocsConfig ∧
    updateDataDocsEntry (some ["local_site"]) ∈ builtSelectedDocsConfig.action_list :=
  ⟨rfl,
   claim_C4.1 "foo" sampleContext Option.none defaultNotifyOn defaultNotifyWith
     builtNoDocsConfig rfl Option.none,
   rfl,
   claim_C4.2.1 "foo" sampleContext Option.none defaultNotifyOn defaultNotifyWith
     emptyConfig rfl,
   rfl,
   claim_C4.2.2 "foo" sampleContext Option.none defaultNotifyOn defaultNotifyWith
     builtSelectedDocsConfig rfl⟩

/-- Claim C5: an explicit run-time `validations` list is used verbatim —
one result per entry, with each entry's suite name backfilled from the
merged top-level defaults — and in particular a run with a top-level batch
request and suite name plus one entry carrying only a suite name succeeds
with exactly one validation result (under an engine that passes it). -/
theorem claim_C5 :
    (∀ (engine : BatchRequest → String → ValidationOutcome)
      (config : CheckpointConfig) (rn : Option String)
      (br : Option BatchRequest) (es : Option String)
      (vs : List ValidationSpec) (r : CheckpointResult),
      vs ≠ [] →
      Checkpoint.run engine config rn br es (some vs) = Except.ok r →
      r.run_results.length = vs.length ∧
      r.run_results.map (fun p => p.1.expectation_suite_name) =
        vs.map (fun v =>
          ((v.expectation_suite_name.orElse
            (fun _ => es.orElse
              (fun _ => config.expectation_suite_name))).getD ""))) ∧
    (∀ (engine : BatchRequest → String → ValidationOutcome)
      (config : CheckpointConfig) (br : BatchRequest),
      (engine br "one").success = true →
      ∃ r, Checkpoint.run engine config (some "bar") (some br) (some "one")
          (some [{ batch_request := Option.none,
                   expectation_suite_name := some "one" }]) = Except.ok r ∧
        r.success = true ∧ r.run_results.length = 1) := by
  constructor
  · intro engine config rn br es vs r hne h
    cases vs with
    | nil => exact absurd rfl hne
    | cons v0 vt =>
        simp only [Checkpoint.run] at h
        split at h
        · exact absurd h (by simp)
        rw [Except.ok.injEq] at h
        subst h
        constructor
        · simp [resolveValidations]
        · simp [resolveValidations, backfillValidation]
  · intro engine config br hsucc
    cases hb : Checkpoint.run engine config (some "bar") (some br) (some "one")
        (some [{ batch_request := Option.none,
                 expectation_suite_name := some "one" }]) with
    | error e =>
        simp [Checkpoint.run, resolveValidations, backfillValidation] at hb
    | ok r =>
        have hb2 := hb
        simp only [Checkpoint.run, resolveValidations] at hb2
        rw [if_neg (by simp [backfillValidation]), Except.ok.injEq] at hb2
        subst hb2
        refine ⟨_, rfl, ?_, rfl⟩
        simp [CheckpointResult.success, backfillValidation, hsucc]

/-- Witness for C5: both parts at the always-succeeding engine and the
test-fixture batch request. -/
theorem claim_C5_witness :
    ([{ batch_request := some sampleBatchRequest,
        expectation_suite_name := some "one" }] : List ValidationSpec) ≠ [] ∧
    Checkpoint.run constEngine emptyConfig Option.none Option.none Option.none
        (some [{ batch_request := some sampleBatchRequest,
                 expectation_suite_name := some "one" }])
        = Except.ok oneRunResult ∧
    oneRunResult.run_results.length = 1 ∧
    (constEngine sampleBatchRequest "one").success = true ∧
    (∃ r, Checkpoint.run constEngine emptyConfig (some "bar")
        (some sampleBatchRequest) (some "one")
        (some [{ batch_request := Option.none,
                 expectation_suite_name := some "one" }]) = Except.ok r ∧
      r.success = true ∧ r.run_results.length = 1) :=
  ⟨by simp, rfl,
   (claim_C5.1 constEngine emptyConfig Option.none Option.none Option.none
     [{ batch_request := some sampleBatchRequest,
        expectation_suite_name := some "one" }] oneRunResult (by simp)
     rfl).1,
   rfl,
   claim_C5.2 constEngine emptyConfig sampleBatchRequest rfl⟩

/-- Claim C6: running a checkpoint with two validations whose suites are
"one" and "two" yields a result whose suite-name set is exactly
`["one", "two"]` and whose validation-result count is 2, for any engine,
config and overrides. -/
theorem claim_C6 (engine : BatchRequest → String → ValidationOutcome)
    (config : CheckpointConfig) (rn : Option String)
    (br : Option BatchRequest) (es : Option String)
    (b1 b2 : Option BatchRequest) :
    ∃ r, Checkpoint.run engine config rn br es
        (some [{ batch_request := b1, expectation_suite_name := some "one" },
               { batch_request := b2, expectation_suite_name := some "two" }])
        = Except.ok r ∧
      r.list_expectation_suite_names = ["one", "two"] ∧
      r.list_validation_results.length = 2 := by
  cases hb : Checkpoint.run engine config rn br es
      (some [{ batch_request := b1, expectation_suite_name := some "one" },
             { batch_request := b2, expectation_suite_name := some "two" }]) with
  | error e =>
      simp [Checkpoint.run, resolveValidations, backfillValidation] at hb
  | ok r =>
      have hb2 := hb
      simp only [Checkpoint.run, resolveValidations] at hb2
      rw [if_neg (by simp [backfillValidation]), Except.ok.injEq] at hb2
      subst hb2
      exact ⟨_, rfl, rfl, rfl⟩

/-- Claim C7: every `notify_on` value outside the strings "all", "success",
"failure" — including non-strings, wrong strings, `None` and the empty
list — makes the configurator fail with the ConfigError class at build
time (the result is an error, so no config is ever constructed). -/
theorem claim_C7 (n : String) (ctx : DataContext) (v : PyValue)
    (h : validNotifyOn v = false) :
    SimpleCheckpointConfigurator.build n ctx Option.none v defaultNotifyWith
      defaultSiteNames = Except.error BuildError.configError := by
  simp [SimpleCheckpointConfigurator.build, validSlackWebhook, h]

/-- Witness for C7 at the four invalid values used by the test suite:
`1`, `"bar"`, `None` and `[]`. -/
theorem claim_C7_witness :
    validNotifyOn (PyValue.pyInt 1) = false ∧
    SimpleCheckpointConfigurator.build "foo" sampleContext Option.none
      (PyValue.pyInt 1) defaultNotifyWith defaultSiteNames
      = Except.error BuildError.configError ∧
    SimpleCheckpointConfigurator.build "foo" sampleContext Option.none
      (PyValue.pyStr "bar") defaultNotifyWith defaultSiteNames
      = Except.error BuildError.configError ∧
    SimpleCheckpointConfigurator.build "foo" sampleContext Option.none
      PyValue.pyNone defaultNotifyWith defaultSiteNames
      = Except.error BuildError.configError ∧
    SimpleCheckpointConfigurator.build "foo" sampleContext Option.none
      (PyValue.pyList []) defaultNotifyWith defaultSiteNames
      = Except.error BuildError.configError :=
  ⟨rfl,
   claim_C7 "foo" sampleContext (PyValue.pyInt 1) rfl,
   claim_C7 "foo" sampleContext (PyValue.pyStr "bar") (by decide),
   claim_C7 "foo" sampleContext PyValue.pyNone rfl,
   claim_C7 "foo" sampleContext (PyValue.pyList []) rfl⟩

/-- Claim C8: supplying `notify_with` with a non-default value, or
`notify_on` with a non-default value, without a slack webhook makes the
configurator fail with the ConfigError class at build time. A supplied
value is observable exactly when it differs from the default "all". -/
theorem claim_C8 (n : String) (ctx : DataContext) (no nw : PyValue)
    (h : isLiteralAll no = false ∨ isLiteralAll nw = false) :
    SimpleCheckpointConfigurator.build n ctx Option.none no nw defaultSiteNames
      = Except.error BuildError.configError := by
  by_cases h1 : validNotifyOn no = true
  · by_cases h2 : validNotifyWith nw = true
    · rcases h with h | h <;>
        simp [SimpleCheckpointConfigurator.build, validSlackWebhook, h1, h2, h]
    · simp [SimpleCheckpointConfigurator.build, validSlackWebhook, h1,
        eq_false_of_ne_true h2]
  · simp [SimpleCheckpointConfigurator.build, validSlackWebhook,
      eq_false_of_ne_true h1]

/-- Witness for C8 at the two test scenarios: a `notify_with` list without
a webhook, and a non-default `notify_on` without a webhook. -/
theorem claim_C8_witness :
    isLiteralAll (PyValue.pyList [PyValue.pyStr "prod", PyValue.pyStr "dev"])
      = false ∧
    SimpleCheckpointConfigurator.build "foo" sampleContext Option.none
        defaultNotifyOn (PyValue.pyList [PyValue.pyStr "prod", PyValue.pyStr "dev"])
        defaultSiteNames = Except.error BuildError.configError ∧
    isLiteralAll (PyValue.pyStr "success") = false ∧
    SimpleCheckpointConfigurator.build "foo" sampleContext Option.none
        (PyValue.pyStr "success") defaultNotifyWith defaultSiteNames
        = Except.error BuildError.configError :=
  ⟨rfl,
   claim_C8 "foo" sampleContext defaultNotifyOn
     (PyValue.pyList [PyValue.pyStr "prod", PyValue.pyStr "dev"]) (Or.inr rfl),
   by decide,
   claim_C8 "foo" sampleContext (PyValue.pyStr "success") defaultNotifyWith
     (Or.inl (by decide))⟩

/-- Claim C9: a collection-valued `site_names` containing a non-string
element fails with the TypeError class, and an all-string collection
containing a name not registered with the context fails with the
ConfigError class, both at build time. -/
theorem claim_C9 :
    (∀ (n : String) (ctx : DataContext) (xs : List PyValue),
      asStringList xs = Option.none →
      SimpleCheckpointConfigurator.build n ctx Option.none defaultNotifyOn
        defaultNotifyWith (PyValue.pyList xs) = Except.error BuildError.typeError) ∧
    (∀ (n : String) (ctx : DataContext) (xs : List PyValue) (strs : List String),
      asStringList xs = some strs →
      strs.all (fun s => ctx.site_names.contains s) = false →
      SimpleCheckpointConfigurator.build n ctx Option.none defaultNotifyOn
        defaultNotifyWith (PyValue.pyList xs) = Except.error BuildError.configError) := by
  constructor
  · intro n ctx xs h
    simp [SimpleCheckpointConfigurator.build, validSlackWebhook, defaultNotifyOn,
      defaultNotifyWith, validNotifyOn, validNotifyWith, isLiteralAll,
      resolveSiteNames, h]
  · intro n ctx xs strs h hall
    have hall2 : ¬ ∀ x ∈ strs, x ∈ ctx.site_names := by simpa using hall
    simp [SimpleCheckpointConfigurator.build, validSlackWebhook, defaultNotifyOn,
      defaultNotifyWith, validNotifyOn, validNotifyWith, isLiteralAll,
      resolveSiteNames, h, hall2]

/-- Witness for C9 at the test fixtures: a mixed-type list and the
unregistered name "prod" against a context registering only
"local_site". -/
theorem claim_C9_witness :
    asStringList [PyValue.pyInt 1, PyValue.pyStr "local"] = Option.none ∧
    SimpleCheckpointConfigurator.build "foo" sampleContext Option.none
      defaultNotifyOn defaultNotifyWith
      (PyValue.pyList [PyValue.pyInt 1, PyValue.pyStr "local"])
      = Except.error BuildError.typeError ∧
    asStringList [PyValue.pyStr "prod"] = some ["prod"] ∧
    (["prod"].all (fun s => sampleContext.site_names.contains s)) = false ∧
    SimpleCheckpointConfigurator.build "foo" sampleContext Option.none
      defaultNotifyOn defaultNotifyWith (PyValue.pyList [PyValue.pyStr "prod"])
      = Except.error BuildError.configError :=
  ⟨rfl,
   claim_C9.1 "foo" sampleContext [PyValue.pyInt 1, PyValue.pyStr "local"] rfl,
   rfl, by decide,
   claim_C9.2 "foo" sampleContext [PyValue.pyStr "prod"] ["prod"] rfl (by decide)⟩

/-- Claim C10: omitting `site_names` (that is, leaving it at its default)
behaves identically to passing "all": the build is the same, succeeds, and
its action list contains the update-docs entry with the site filter
explicitly unset. -/
theorem claim_C10 (n : String) (ctx : DataContext) (wh : Option String)
    (hwh : validSlackWebhook wh = true) :
    SimpleCheckpointConfigurator.build n ctx wh defaultNotifyOn defaultNotifyWith
        defaultSiteNames =
      SimpleCheckpointConfigurator.build n ctx wh defaultNotifyOn defaultNotifyWith
        (PyValue.pyStr "all") ∧
    ∃ cfg, SimpleCheckpointConfigurator.build n ctx wh defaultNotifyOn
        defaultNotifyWith defaultSiteNames = Except.ok cfg ∧
      updateDataDocsEntry Option.none ∈ cfg.action_list := by
  refine ⟨rfl, ?_⟩
  cases hb : SimpleCheckpointConfigurator.build n ctx wh defaultNotifyOn
      defaultNotifyWith defaultSiteNames with
  | error e =>
      simp [SimpleCheckpointConfigurator.build, hwh, defaultNotifyOn,
        defaultNotifyWith, defaultSiteNames, validNotifyOn, validNotifyWith,
        isLiteralAll, resolveSiteNames] at hb
  | ok cfg =>
      refine ⟨cfg, rfl, ?_⟩
      simp [SimpleCheckpointConfigurator.build, hwh, defaultNotifyOn,
        defaultNotifyWith, defaultSiteNames, validNotifyOn, validNotifyWith,
        isLiteralAll, resolveSiteNames] at hb
      rw [← hb]
      simp

/-- Witness for C10 with no webhook: the defaulted build equals the
explicit "all" build and carries the unset-filter update-docs entry. -/
theorem claim_C10_witness :
    validSlackWebhook Option.none = true ∧
    (SimpleCheckpointConfigurator.build "foo" sampleContext Option.none
        defaultNotifyOn defaultNotifyWith defaultSiteNames =
      SimpleCheckpointConfigurator.build "foo" sampleContext Option.none
        defaultNotifyOn defaultNotifyWith (PyValue.pyStr "all")) ∧
    (∃ cfg, SimpleCheckpointConfigurator.build "foo" sampleContext Option.none
        defaultNotifyOn defaultNotifyWith defaultSiteNames = Except.ok cfg ∧
      updateDataDocsEntry Option.none ∈ cfg.action_list) :=
  ⟨rfl,
   (claim_C10 "foo" sampleContext Option.none rfl).1,
   (claim_C10 "foo" sampleContext Option.none rfl).2⟩
